import Mathlib

/-!
# Pet store demo: service backend, gateway and caller

A shallow embedding of the two Go programs of the repository:

* `src/main.go`: the server. `petStoreService.ListPets` answers the one query; `main`
  builds a router, installs the cross-origin policy and mounts the generated handler.
* `src/cmd/client/main.go`: the caller. It issues one `ListPets` call and prints the names.

Conventions of the embedding:

* a Go pointer `*T` is `Option T` (`none` is the nil pointer);
* a Go slice `[]T` is `Slice T`, an `Option (List T)` whose `none` is the nil slice;
* a Go `error` is `Option Error` (`none` is the nil error);
* a process run is a `Proc`: the calls it issued, the writes to standard output, the writes
  to standard error and, once it has stopped, its exit status.
-/

namespace PetStore

/-! ## Go values -/

/-- A Go slice: `none` is the nil slice, `some xs` a slice holding `xs`. -/
abbrev Slice (α : Type) := Option (List α)

/-- The elements a `range` loop over the slice visits, in order; a nil slice has none. -/
def Slice.elems {α : Type} : Slice α → List α
  | none => []
  | some xs => xs

/-- Go builtin `len`. -/
def Slice.len {α : Type} (s : Slice α) : Nat := s.elems.length

/-- A non-nil Go `error` value, identified by the text `Error()` returns. -/
structure Error where
  msg : String
deriving DecidableEq, Repr

/-- The standard library `context.Context`, of which the programs only pass values around. -/
structure Context where
  deadline : Option Nat
  values : List (String × String)
deriving DecidableEq, Repr

/-- The context `context.Background()` returns: no deadline, no values. -/
def Context.Background : Context := { deadline := none, values := [] }

/-! ## Generated message types (`typesv1`, `petstorev1`) -/

/-- Modelled from the spec: the generated package `gen/types/v1` is not among the sources;
the spec gives `petType: enum{DOG, CAT, OTHER, UNSPECIFIED}`. The constructor names are the
identifiers the server source uses (`typesv1.PetType_PET_TYPE_DOG`). -/
inductive PetType where
  | PET_TYPE_UNSPECIFIED
  | PET_TYPE_DOG
  | PET_TYPE_CAT
  | PET_TYPE_OTHER
deriving DecidableEq, Repr

/-- Modelled from the spec: the generated message `petstorev1.Pet` is not among the sources;
the spec gives `Pet: { name: string, petType: enum }`, and the server source names the two
fields `Name` and `PetType`. -/
structure Pet where
  Name : String
  PetType : PetType
deriving DecidableEq, Repr

/-- Modelled from the spec: the generated message `petstorev1.ListPetsRequest`, an "empty
marker type carrying no fields". -/
structure ListPetsRequest where
deriving DecidableEq, Repr

/-- Modelled from the spec: the generated message `petstorev1.ListPetsResponse`,
`{ pets: ordered sequence of Pet }`; in Go the field is `Pets []*Pet`. -/
structure ListPetsResponse where
  Pets : Slice (Option Pet)
deriving DecidableEq, Repr

/-- Modelled from the spec: the generated getter `(*ListPetsResponse).GetPets`, which the
caller uses on a possibly nil message: it returns the `Pets` field of a non-nil receiver and
the nil slice for a nil receiver. -/
def ListPetsResponse.GetPets : Option ListPetsResponse → Slice (Option Pet)
  | some x => x.Pets
  | none => none

/-! ## The RPC library's envelopes (`connect`) -/

/-- The envelope `connect.Request[T]`: a pointer to the message and the request headers. -/
structure Request (T : Type) where
  Msg : Option T
  header : List (String × String)
deriving DecidableEq, Repr

/-- The envelope `connect.Response[T]`: a pointer to the message, headers and trailers. -/
structure Response (T : Type) where
  Msg : Option T
  header : List (String × String)
  trailer : List (String × String)
deriving DecidableEq, Repr

/-- The constructor `connect.NewRequest(msg)`: wraps the message, with no headers set. -/
def connect.NewRequest {T : Type} (msg : Option T) : Option (Request T) :=
  some { Msg := msg, header := [] }

/-- The constructor `connect.NewResponse(msg)`: wraps the message, with no headers or
trailers set; the pointer it returns is never nil. -/
def connect.NewResponse {T : Type} (msg : Option T) : Option (Response T) :=
  some { Msg := msg, header := [], trailer := [] }

/-- What a unary `ListPets` call returns in Go: `(*connect.Response[ListPetsResponse], error)`. -/
abbrev ListPetsResult := Option (Response ListPetsResponse) × Option Error

/-! ## Service backend (`src/main.go`) -/

/-- The server type `petStoreService struct{}`: no fields, hence no state. -/
structure petStoreService where
deriving DecidableEq, Repr

/-- The method `(p *petStoreService) ListPets(ctx, _)` of `src/main.go`: it builds the
response message from a literal of three pets and returns it wrapped, with a nil error.
The receiver, the context and the request are not read. -/
def petStoreService.ListPets (_p : Option petStoreService) (_ctx : Context)
    (_req : Option (Request ListPetsRequest)) : ListPetsResult :=
  let resp : Option ListPetsResponse := some {
    Pets := some [
      some { Name := "Rocky", PetType := PetType.PET_TYPE_DOG },
      some { Name := "Buddy", PetType := PetType.PET_TYPE_DOG },
      some { Name := "Dante", PetType := PetType.PET_TYPE_DOG }
    ]
  }
  (connect.NewResponse resp, none)

/-! ## Caller (`src/cmd/client/main.go`) -/

/-- The observable run of a process: how many `ListPets` calls it has issued, what it wrote
to standard output and to standard error (one entry per write, in order), and its exit
status once it has stopped. -/
structure Proc where
  calls : Nat
  stdout : List String
  stderr : List String
  exit : Option Nat
deriving DecidableEq, Repr

/-- A process that has just started. -/
def Proc.start : Proc := { calls := 0, stdout := [], stderr := [], exit := none }

/-- The text `fmt.Println` writes for string operands: the operands separated by single
spaces, then a newline. -/
def fmt.Sprintln (args : List String) : String := " ".intercalate args ++ "\n"

/-- The call `fmt.Println(args...)`: one write to standard output. -/
def fmt.Println (args : List String) (s : Proc) : Proc :=
  { s with stdout := s.stdout ++ [fmt.Sprintln args] }

/-- The call `log.Fatal(err)`: the error text goes to standard error (the logger's timestamp
is left out) and the process exits with status 1. -/
def log.Fatal (err : Error) (s : Proc) : Proc :=
  { s with stderr := s.stderr ++ [err.msg], exit := some 1 }

/-- The text the Go runtime reports when a nil pointer is dereferenced. -/
def nilDereference : String :=
  "panic: runtime error: invalid memory address or nil pointer dereference"

/-- An unrecovered run-time panic: the runtime reports it on standard error and the process
exits with status 2. -/
def runtimePanic (s : Proc) : Proc :=
  { s with stderr := s.stderr ++ [nilDereference], exit := some 2 }

/-- Return from `main`: the process exits with status 0. -/
def exitOk (s : Proc) : Proc := { s with exit := some 0 }

/-- The client stub as the caller sees it: the result of the `n`-th `ListPets` call it
issues (counted from 0), for the context and request it passes. The network, the gateway
and the backend are all behind this function. -/
abbrev PetStoreServiceClient := Nat → Context → Option (Request ListPetsRequest) → ListPetsResult

/-- One `c.ListPets(ctx, req)`: the stub answers, and the call is counted. -/
def PetStoreServiceClient.ListPets (c : PetStoreServiceClient) (ctx : Context)
    (req : Option (Request ListPetsRequest)) (s : Proc) : ListPetsResult × Proc :=
  (c s.calls ctx req, { s with calls := s.calls + 1 })

/-- The loop `for _, pet := range pets { fmt.Println(">>>", pet.Name) }` over the elements
still to visit. Reading `pet.Name` through a nil `pet` panics, which ends the process with
the lines written so far; otherwise the loop runs to the end of the slice. -/
def printLoop : List (Option Pet) → Proc → Proc
  | [], s => s
  | none :: _, s => runtimePanic s
  | some pet :: rest, s => printLoop rest (fmt.Println [">>>", pet.Name] s)

/-- The caller's `main`, given the client stub `NewPetStoreServiceClient` returned: one call
with an empty request; a non-nil error is fatal; otherwise `resp.Msg` is read (a panic when
`resp` is nil), the pets are printed, and `main` returns unless the loop panicked. -/
def client.main (c : PetStoreServiceClient) : Proc :=
  let (r, s) := c.ListPets Context.Background
    (connect.NewRequest (some ({} : ListPetsRequest))) Proc.start
  match r.2 with
  | some err => log.Fatal err s
  | none =>
    match r.1 with
    | none => runtimePanic s
    | some resp =>
      let s := printLoop (ListPetsResponse.GetPets resp.Msg).elems s
      match s.exit with
      | some _ => s
      | none => exitOk s

/-! ## Gateway (`main` of `src/main.go`)

The router (`chi`), the cross-origin middleware (`cors`) and the generated handler
(`petstorev1connect`) are not among the sources. They are modelled below as far as the
server's `main` uses them; the wire encoding and the HTTP framing of the RPC library are
taken as a given transport, so an inbound request already carries its decoded typed
request. -/

/-- An inbound HTTP request as far as routing and the cross-origin policy read it: the URL
path, the `Origin` header when the request has one, the request context, and the typed
request the RPC library decodes from the body. -/
structure HttpRequest where
  path : String
  origin : Option String
  ctx : Context
  body : Option (Request ListPetsRequest)
deriving DecidableEq, Repr

/-- What the routing layer did with a request: it ran an operation of the service and has
that operation's result to encode, or no operation is registered for the path. -/
inductive Routed where
  | rpc (result : ListPetsResult)
  | notFound
deriving DecidableEq, Repr

/-- The server's answer: the `Access-Control-Allow-Origin` header when the policy layer set
one, and what the routing layer did. -/
structure HttpResponse where
  allowOrigin : Option String
  routed : Routed
deriving DecidableEq, Repr

/-- The standard library `http.Handler`. -/
abbrev Handler := HttpRequest → HttpResponse

/-- The standard library `http.NotFound`. -/
def http.NotFound : Handler := fun _ => { allowOrigin := none, routed := Routed.notFound }

/-- Modelled from the spec: the generated interface `petstorev1connect.PetStoreServiceHandler`
is not among the sources; the spec has the Gateway depend on the backend "only through the
operation contract (`ListPets` signature)". -/
structure PetStoreServiceHandler where
  ListPets : Context → Option (Request ListPetsRequest) → ListPetsResult

/-- The declaration `var _ petstorev1connect.PetStoreServiceHandler = (*petStoreService)(nil)`
of `src/main.go`: a `*petStoreService` is a handler, through its `ListPets` method. -/
def petStoreService.toHandler (p : Option petStoreService) : PetStoreServiceHandler :=
  { ListPets := petStoreService.ListPets p }

/-- Modelled from the spec: the protobuf package of the service; the generated code is not
among the sources, the server imports it from `gen/petstore/v1` as `petstorev1`. -/
def petstorev1connect.packageName : String := "petstore.v1"

/-- Modelled from the spec: the service name, as in the identifiers
`NewPetStoreServiceHandler` and `PetStoreServiceHandler` the server source uses. -/
def petstorev1connect.PetStoreServiceName : String :=
  petstorev1connect.packageName ++ "." ++ "PetStoreService"

/-- Modelled from the spec: the path of an operation, "namespaced by service name (external
library convention: `/<package>.<Service>/<Method>`)". -/
def petstorev1connect.procedure (service method : String) : String :=
  "/" ++ service ++ "/" ++ method

/-- Modelled from the spec: the path of the one operation, `ListPets`. -/
def petstorev1connect.PetStoreServiceListPetsProcedure : String :=
  petstorev1connect.procedure petstorev1connect.PetStoreServiceName "ListPets"

/-- Modelled from the spec: the generated constructor
`petstorev1connect.NewPetStoreServiceHandler`, not among the sources. The spec has it
register "exactly one operation (`ListPets`) under a well-known path derived from the
service's and operation's names" and "on receipt of a call for that path" invoke the
backend on the decoded request and return the result. It returns the path under which the
service is to be mounted, and the handler. -/
def petstorev1connect.NewPetStoreServiceHandler (svc : PetStoreServiceHandler) :
    String × Handler :=
  ("/" ++ petstorev1connect.PetStoreServiceName ++ "/", fun r =>
    if r.path = petstorev1connect.PetStoreServiceListPetsProcedure then
      { allowOrigin := none, routed := Routed.rpc (svc.ListPets r.ctx r.body) }
    else
      http.NotFound r)

/-- Modelled from the spec: the options of the cross-origin library (`github.com/rs/cors`),
not among the sources. -/
structure cors.Options where
  AllowedOrigins : List String
  AllowedMethods : List String
  AllowedHeaders : List String
  AllowCredentials : Bool
deriving DecidableEq, Repr

/-- Modelled from the spec: `cors.AllowAll()`, the "permissive allow-all policy": every
origin, the standard methods, every header, no credentials. -/
def cors.AllowAll : cors.Options :=
  { AllowedOrigins := ["*"]
    AllowedMethods := ["HEAD", "GET", "POST", "PUT", "PATCH", "DELETE"]
    AllowedHeaders := ["*"]
    AllowCredentials := false }

/-- Modelled from the spec: whether the policy admits every origin. -/
def cors.Options.allowedOriginsAll (o : cors.Options) : Bool := o.AllowedOrigins.contains "*"

/-- Modelled from the spec: whether the policy admits the origin: it admits every origin,
or the origin is listed. -/
def cors.Options.isOriginAllowed (o : cors.Options) (origin : String) : Bool :=
  o.allowedOriginsAll || o.AllowedOrigins.contains origin

/-- Modelled from the spec: the middleware `(*Cors).Handler`. The request always goes on to
the next handler; when it names an origin the policy admits, the answer gets the
`Access-Control-Allow-Origin` header (`*` under an admit-all policy, else the origin). An
origin the policy does not admit gets no such header: that is how the policy layer rejects
it. -/
def cors.Options.Handler (o : cors.Options) (next : Handler) : Handler := fun r =>
  let resp := next r
  match r.origin with
  | none => resp
  | some origin =>
    if o.isOriginAllowed origin then
      { resp with allowOrigin := some (if o.allowedOriginsAll then "*" else origin) }
    else
      resp

/-- Modelled from the spec: the router `chi.Mux`, not among the sources: the middleware
stack, outermost first, and the mounted handlers with their patterns, in mounting order. -/
structure chi.Mux where
  middlewares : List (Handler → Handler)
  routes : List (String × Handler)

/-- Modelled from the spec: `chi.NewRouter()`, a router with no middleware and no route. -/
def chi.NewRouter : chi.Mux := { middlewares := [], routes := [] }

/-- Modelled from the spec: `(*Mux).Use`, which appends to the middleware stack. The router
refuses (panics) once a route exists: all middleware is defined before the routes. -/
def chi.Mux.Use (mx : chi.Mux) (mw : Handler → Handler) : Option chi.Mux :=
  if mx.routes.isEmpty then some { mx with middlewares := mx.middlewares ++ [mw] } else none

/-- Modelled from the spec: `(*Mux).Mount(pattern, handler)`, which attaches the handler to
every path under the pattern. -/
def chi.Mux.Mount (mx : chi.Mux) (route : String × Handler) : chi.Mux :=
  { mx with routes := mx.routes ++ [route] }

/-- Modelled from the spec: routing proper: the first mounted handler whose pattern starts
the request path serves the request; with none, the answer is not-found. -/
def chi.Mux.routeHTTP (mx : chi.Mux) : Handler := fun r =>
  match mx.routes.find? (fun route => route.1.data.isPrefixOf r.path.data) with
  | some route => route.2 r
  | none => http.NotFound r

/-- Modelled from the spec: `(*Mux).ServeHTTP`: the middleware stack wrapped around routing,
the first middleware outermost, so that every request to every route passes through it. -/
def chi.Mux.ServeHTTP (mx : chi.Mux) : Handler :=
  mx.middlewares.foldr (fun mw next => mw next) mx.routeHTTP

/-- The router the server's `main` builds, statement by statement: `chi.NewRouter()`, then
`r.Use(cors.AllowAll().Handler)`, then
`r.Mount(petstorev1connect.NewPetStoreServiceHandler(&petStoreService{}))`. The result is
`none` if a statement panics. -/
def server.router : Option chi.Mux :=
  let r := chi.NewRouter
  match r.Use cors.AllowAll.Handler with
  | none => none
  | some r =>
    some (r.Mount (petstorev1connect.NewPetStoreServiceHandler
      (petStoreService.toHandler (some {}))))

/-- The server's `main` as a function of an inbound request: `http.ListenAndServe(":8080", r)`
hands every request it accepts to the router just built. -/
def server.main (req : HttpRequest) : Option HttpResponse :=
  server.router.map (fun r => r.ServeHTTP req)

/-- The transport between the two programs when it delivers unchanged: the caller's stub
returns, for every call, what the backend behind the gateway returned for it. -/
def deliveredUnchanged (p : Option petStoreService) : PetStoreServiceClient :=
  fun _ ctx req => petStoreService.ListPets p ctx req

/-! ## Standard output as text -/

/-- The lines of a text: a line ends at each line feed, and characters after the last line
feed form a last, unterminated line. -/
def splitLines : List Char → List (List Char)
  | [] => []
  | c :: cs =>
    if c = '\n' then [] :: splitLines cs
    else
      match splitLines cs with
      | [] => [[c]]
      | l :: ls => (c :: l) :: ls

/-- The text on standard output: the writes, one after the other. -/
def Proc.outputText (s : Proc) : String := String.join s.stdout

/-- The lines on standard output, without their line feeds. -/
def Proc.outputLines (s : Proc) : List String :=
  (splitLines s.outputText.data).map String.mk

/-! ## Inputs used as examples -/

/-- A response holding one pet whose name has a line break in it. -/
def responseWithLineBreak : Response ListPetsResponse :=
  { Msg := some { Pets := some [some { Name := "a\nb", PetType := PetType.PET_TYPE_DOG }] }
    header := []
    trailer := [] }

/-- A response holding a cat, then a dog, then a pet of another kind with an empty name. -/
def responseWithThreeKinds : Response ListPetsResponse :=
  { Msg := some { Pets := some [
      some { Name := "Tom", PetType := PetType.PET_TYPE_CAT },
      some { Name := "Rex", PetType := PetType.PET_TYPE_DOG },
      some { Name := "", PetType := PetType.PET_TYPE_OTHER }] }
    header := []
    trailer := [] }

/-- A response holding one cat. -/
def responseWithOneCat : Response ListPetsResponse :=
  { Msg := some { Pets := some [some { Name := "Tom", PetType := PetType.PET_TYPE_CAT }] }
    header := []
    trailer := [] }

/-- A stub whose first call fails with a response attached and whose later calls would
succeed. -/
def failsOnceClient : PetStoreServiceClient := fun n _ _ =>
  if n = 0 then (some responseWithOneCat, some { msg := "connection refused" })
  else (some responseWithOneCat, none)

/-- A request for the `ListPets` path from some web origin. -/
def listPetsFromElsewhere : HttpRequest :=
  { path := "/petstore.v1.PetStoreService/ListPets"
    origin := some "https://elsewhere.example"
    ctx := Context.Background
    body := connect.NewRequest (some {}) }

/-! ## Helper lemmas -/

/-- The line the caller writes for a pet: the marker, one space, the name, a newline. -/
def petLine (pet : Pet) : String := ">>> " ++ pet.Name ++ "\n"

theorem Sprintln_marker (name : String) : fmt.Sprintln [">>>", name] = ">>> " ++ name ++ "\n" := by
  have h : (">>>" : String) ++ " " = ">>> " := by decide
  simp only [fmt.Sprintln, String.intercalate, String.intercalate.go]
  rw [String.append_assoc ">>>" " " name, ← String.append_assoc, h]

theorem printLoop_all_some (pets : List Pet) (s : Proc) :
    printLoop (pets.map some) s = { s with stdout := s.stdout ++ pets.map petLine } := by
  induction pets generalizing s with
  | nil => simp [printLoop]
  | cons pet rest ih =>
    simp only [List.map_cons, printLoop, ih, fmt.Println, Sprintln_marker, petLine]
    simp

theorem all_some_of_no_nil {α : Type} (l : List (Option α)) (h : ∀ e ∈ l, e ≠ none) :
    ∃ xs : List α, l = xs.map some := by
  induction l with
  | nil => exact ⟨[], rfl⟩
  | cons e rest ih =>
    obtain ⟨xs, hxs⟩ := ih (fun x hx => h x (List.mem_cons_of_mem _ hx))
    cases e with
    | none => exact absurd rfl (h none (List.mem_cons_self _ _))
    | some a => exact ⟨a :: xs, by simp [hxs]⟩

/-- A text that starts with a line free of line feeds, then a line feed: its first line is
that line, and the other lines are those of what follows. -/
theorem splitLines_append_line (l rest : List Char) (hl : '\n' ∉ l) :
    splitLines (l ++ '\n' :: rest) = l :: splitLines rest := by
  induction l with
  | nil => simp [splitLines]
  | cons c cs ih =>
    have hc : c ≠ '\n' := fun hEq => hl (hEq ▸ List.mem_cons_self _ _)
    have hcs : '\n' ∉ cs := fun hmem => hl (List.mem_cons_of_mem _ hmem)
    simp [splitLines, hc, ih hcs]

/-- The lines of the text the caller writes for pets whose names hold no line feed. -/
theorem splitLines_petLines (pets : List Pet) (hfree : ∀ pet ∈ pets, '\n' ∉ pet.Name.data) :
    splitLines ((pets.map (fun pet => (petLine pet).data)).flatten) =
      pets.map (fun pet => (">>> " ++ pet.Name).data) := by
  induction pets with
  | nil => rfl
  | cons pet rest ih =>
    have hname : '\n' ∉ pet.Name.data := hfree pet (List.mem_cons_self _ _)
    have hline : '\n' ∉ (">>> " ++ pet.Name).data := by
      simp only [String.data_append, List.mem_append, not_or]
      exact ⟨by decide, hname⟩
    have hdata : (petLine pet).data = (">>> " ++ pet.Name).data ++ '\n' :: [] := by
      simp [petLine, String.data_append]
    simp only [List.map_cons, List.flatten_cons, hdata, List.append_assoc, List.cons_append,
      List.nil_append]
    rw [splitLines_append_line _ _ hline,
      ih (fun x hx => hfree x (List.mem_cons_of_mem _ hx))]

/-- The lines on standard output of a process that wrote one line per pet. -/
theorem outputLines_of_petLines (pets : List Pet)
    (hfree : ∀ pet ∈ pets, '\n' ∉ pet.Name.data) (s : Proc)
    (hs : s.stdout = pets.map petLine) :
    s.outputLines = pets.map (fun pet => ">>> " ++ pet.Name) := by
  have h := splitLines_petLines pets hfree
  simp only [Proc.outputLines, Proc.outputText, hs, String.data_join, List.map_map]
  have hcomp : (String.data ∘ petLine) = (fun pet => (petLine pet).data) := rfl
  rw [hcomp, h, List.map_map]
  rfl

/-- The caller's run on a successful call whose pets entries are all non-nil. -/
theorem client_main_of_success (c : PetStoreServiceClient) (resp : Response ListPetsResponse)
    (pets : List Pet)
    (hcall : c 0 Context.Background (connect.NewRequest (some {})) = (some resp, none))
    (hpets : (ListPetsResponse.GetPets resp.Msg).elems = pets.map some) :
    client.main c = { calls := 1, stdout := pets.map petLine, stderr := [], exit := some 0 } := by
  simp [client.main, PetStoreServiceClient.ListPets, Proc.start, hcall, hpets,
    printLoop_all_some, exitOk]

/-- The server's router, once built. -/
theorem server_router_eq :
    server.router = some
      { middlewares := [cors.AllowAll.Handler]
        routes := [petstorev1connect.NewPetStoreServiceHandler
          (petStoreService.toHandler (some {}))] } := by
  simp [server.router, chi.NewRouter, chi.Mux.Use, chi.Mux.Mount]

/-- The `ListPets` path lies under the path the service is mounted at. -/
theorem procedure_under_mount :
    ("/" ++ petstorev1connect.PetStoreServiceName ++ "/").data.isPrefixOf
      petstorev1connect.PetStoreServiceListPetsProcedure.data = true := by
  decide

/-- Routing in a router with a single mounted handler. -/
theorem routeHTTP_single (mws : List (Handler → Handler)) (pat : String) (h : Handler)
    (req : HttpRequest) :
    chi.Mux.routeHTTP { middlewares := mws, routes := [(pat, h)] } req =
      if pat.data.isPrefixOf req.path.data = true then h req else http.NotFound req := by
  unfold chi.Mux.routeHTTP
  by_cases hp : pat.data.isPrefixOf req.path.data = true
  · simp [List.find?, hp]
  · simp [List.find?, hp]

/-- What routing does in the server's router, before the policy layer is put around it. -/
theorem server_route (mx : chi.Mux) (hmx : server.router = some mx) (req : HttpRequest) :
    mx.routeHTTP req =
      if req.path = petstorev1connect.PetStoreServiceListPetsProcedure then
        { allowOrigin := none
          routed := Routed.rpc (petStoreService.ListPets (some {}) req.ctx req.body) }
      else http.NotFound req := by
  rw [server_router_eq] at hmx
  cases Option.some.inj hmx
  unfold petstorev1connect.NewPetStoreServiceHandler
  rw [routeHTTP_single]
  by_cases hp : req.path = petstorev1connect.PetStoreServiceListPetsProcedure
  · have hpre := procedure_under_mount
    rw [← hp] at hpre
    rw [if_pos hpre, if_pos hp, if_pos hp]
    rfl
  · rw [if_neg hp, if_neg hp]
    split <;> rfl

/-- The policy layer of the server's router: the allow-all middleware around routing. -/
theorem server_serve (mx : chi.Mux) (hmx : server.router = some mx) :
    mx.ServeHTTP = cors.AllowAll.Handler mx.routeHTTP := by
  rw [server_router_eq] at hmx
  cases Option.some.inj hmx
  rfl

/-! ## Service backend -/

/-- C1: for every receiver, context and request, `petStoreService.ListPets` returns a
response whose `Pets` sequence has exactly 3 entries, named "Rocky", "Buddy", "Dante" in
this order, each a non-nil pet of type `PET_TYPE_DOG`. -/
theorem ListPets_three_dogs (p : Option petStoreService) (ctx : Context)
    (req : Option (Request ListPetsRequest)) :
    ∃ resp msg pets,
      (petStoreService.ListPets p ctx req).1 = some resp ∧ resp.Msg = some msg ∧
      msg.Pets = some pets ∧ pets.length = 3 ∧
      pets.map (Option.map Pet.Name) = [some "Rocky", some "Buddy", some "Dante"] ∧
      ∀ e ∈ pets, ∃ pet, e = some pet ∧ pet.PetType = PetType.PET_TYPE_DOG := by
  refine ⟨_, _, _, rfl, rfl, rfl, rfl, rfl, ?_⟩
  intro e he
  simp only [List.mem_cons, List.mem_singleton, List.not_mem_nil, or_false] at he
  rcases he with h | h | h <;> exact ⟨_, h, rfl⟩

/-- C2: `petStoreService.ListPets` is total and always succeeds: for every receiver,
context and request the error is nil and the response is non-nil with a non-nil message,
and so it is in particular for the nil request pointer. -/
theorem ListPets_always_succeeds (p : Option petStoreService) (ctx : Context)
    (req : Option (Request ListPetsRequest)) :
    ((petStoreService.ListPets p ctx req).2 = none ∧
      ∃ resp msg, (petStoreService.ListPets p ctx req).1 = some resp ∧ resp.Msg = some msg) ∧
    ((petStoreService.ListPets p ctx none).2 = none ∧
      ∃ resp msg, (petStoreService.ListPets p ctx none).1 = some resp ∧ resp.Msg = some msg) :=
  ⟨⟨rfl, _, _, rfl, rfl⟩, ⟨rfl, _, _, rfl, rfl⟩⟩

/-- C3: the result of `petStoreService.ListPets` does not depend on its inputs: any two
invocations, with any receivers, contexts and requests, return structurally equal
responses (the same `Pets` sequence, entry by entry in name and type), both with a nil
error. The service type has no field and the method reads no variable, so there is no
earlier call to depend on. -/
theorem ListPets_independent_of_inputs (p₁ p₂ : Option petStoreService) (ctx₁ ctx₂ : Context)
    (req₁ req₂ : Option (Request ListPetsRequest)) :
    (petStoreService.ListPets p₁ ctx₁ req₁).1 = (petStoreService.ListPets p₂ ctx₂ req₂).1 ∧
    ((petStoreService.ListPets p₁ ctx₁ req₁).1.bind (fun r => r.Msg)).map (fun m => m.Pets) =
      ((petStoreService.ListPets p₂ ctx₂ req₂).1.bind (fun r => r.Msg)).map (fun m => m.Pets) ∧
    (petStoreService.ListPets p₁ ctx₁ req₁).2 = none ∧
    (petStoreService.ListPets p₂ ctx₂ req₂).2 = none :=
  ⟨rfl, rfl, rfl, rfl⟩

/-! ## Caller -/

/-- C4, as stated, fails: on a successful call whose response holds the single pet named
"a", line feed, "b", the caller puts two lines on standard output for the one entry, the
second of them without the marker. -/
theorem client_main_line_break_in_name :
    (ListPetsResponse.GetPets responseWithLineBreak.Msg).len = 1 ∧
    (client.main (fun _ _ _ => (some responseWithLineBreak, none))).outputText = ">>> a\nb\n" ∧
    (client.main (fun _ _ _ => (some responseWithLineBreak, none))).outputLines =
      [">>> a", "b"] ∧
    (client.main (fun _ _ _ => (some responseWithLineBreak, none))).outputLines.length ≠
      (ListPetsResponse.GetPets responseWithLineBreak.Msg).len ∧
    (client.main (fun _ _ _ => (some responseWithLineBreak, none))).exit = some 0 := by
  decide

/-- C4, amended: on a successful call (nil error), for every response (its pets entries
non-nil, as the generated client delivers them) the caller writes to standard output, for
each entry of the pets sequence in sequence order and nothing else, the marker ">>>", one
space, the entry's name and a line feed; when no name holds a line feed, that is exactly
one line per entry, each line the marker, one space and the entry's name. It issues one
call, reports nothing on standard error and exits with status 0. In particular an empty
pets sequence writes nothing and still exits 0. -/
theorem client_main_prints_each_pet (c : PetStoreServiceClient)
    (resp : Response ListPetsResponse) (pets : List Pet)
    (hcall : c 0 Context.Background (connect.NewRequest (some {})) = (some resp, none))
    (hpets : (ListPetsResponse.GetPets resp.Msg).elems = pets.map some) :
    (client.main c).stdout = pets.map (fun pet => ">>> " ++ pet.Name ++ "\n") ∧
    (client.main c).outputText = String.join (pets.map (fun pet => ">>> " ++ pet.Name ++ "\n")) ∧
    ((∀ pet ∈ pets, '\n' ∉ pet.Name.data) →
      (client.main c).outputLines = pets.map (fun pet => ">>> " ++ pet.Name) ∧
      (client.main c).outputLines.length = (ListPetsResponse.GetPets resp.Msg).len) ∧
    (client.main c).calls = 1 ∧
    (client.main c).stderr = [] ∧
    (client.main c).exit = some 0 ∧
    (pets = [] → (client.main c).stdout = [] ∧ (client.main c).outputText = "" ∧
      (client.main c).exit = some 0) := by
  have h := client_main_of_success c resp pets hcall hpets
  have hout : (client.main c).stdout = pets.map (fun pet => ">>> " ++ pet.Name ++ "\n") := by
    rw [h]; rfl
  refine ⟨hout, by rw [Proc.outputText, hout], ?_, by rw [h], by rw [h], by rw [h], ?_⟩
  · intro hfree
    have hlines := outputLines_of_petLines pets hfree (client.main c) (by rw [h])
    refine ⟨hlines, ?_⟩
    rw [hlines, Slice.len, hpets, List.length_map, List.length_map]
  · intro hnil
    subst hnil
    refine ⟨by rw [hout]; rfl, by rw [Proc.outputText, hout]; rfl, by rw [h]⟩

/-- The amended C4 at a response holding three pets of three kinds, the last with an empty
name: three lines, in the order of the entries. -/
theorem client_main_prints_each_pet_witness :
    (client.main (fun _ _ _ => (some responseWithThreeKinds, none))).stdout =
      [">>> Tom\n", ">>> Rex\n", ">>> \n"] ∧
    (client.main (fun _ _ _ => (some responseWithThreeKinds, none))).outputLines =
      [">>> Tom", ">>> Rex", ">>> "] ∧
    (client.main (fun _ _ _ => (some responseWithThreeKinds, none))).exit = some 0 :=
  ⟨(client_main_prints_each_pet (fun _ _ _ => (some responseWithThreeKinds, none))
      responseWithThreeKinds
      [{ Name := "Tom", PetType := PetType.PET_TYPE_CAT },
       { Name := "Rex", PetType := PetType.PET_TYPE_DOG },
       { Name := "", PetType := PetType.PET_TYPE_OTHER }] rfl rfl).1,
    ((client_main_prints_each_pet (fun _ _ _ => (some responseWithThreeKinds, none))
      responseWithThreeKinds
      [{ Name := "Tom", PetType := PetType.PET_TYPE_CAT },
       { Name := "Rex", PetType := PetType.PET_TYPE_DOG },
       { Name := "", PetType := PetType.PET_TYPE_OTHER }] rfl rfl).2.2.1 (by decide)).1,
    (client_main_prints_each_pet (fun _ _ _ => (some responseWithThreeKinds, none))
      responseWithThreeKinds
      [{ Name := "Tom", PetType := PetType.PET_TYPE_CAT },
       { Name := "Rex", PetType := PetType.PET_TYPE_DOG },
       { Name := "", PetType := PetType.PET_TYPE_OTHER }] rfl rfl).2.2.2.2.2.1⟩

/-- C5: if the `ListPets` client call returns a non-nil error, then, whatever response
came with it, the caller reports that error and exits with status 1 (non-zero), having
issued exactly one call (no retry) and written nothing to standard output. -/
theorem client_main_error_is_fatal (c : PetStoreServiceClient)
    (resp : Option (Response ListPetsResponse)) (err : Error)
    (hcall : c 0 Context.Background (connect.NewRequest (some {})) = (resp, some err)) :
    (client.main c).exit = some 1 ∧ (client.main c).exit ≠ some 0 ∧
    (client.main c).stderr = [err.msg] ∧
    (client.main c).calls = 1 ∧
    (client.main c).stdout = [] := by
  simp [client.main, PetStoreServiceClient.ListPets, Proc.start, hcall, log.Fatal]

/-- The C5 theorem at a stub whose first call fails with a response attached. -/
theorem client_main_error_is_fatal_witness :
    (client.main failsOnceClient).exit = some 1 ∧ (client.main failsOnceClient).exit ≠ some 0 ∧
    (client.main failsOnceClient).stderr = ["connection refused"] ∧
    (client.main failsOnceClient).calls = 1 ∧
    (client.main failsOnceClient).stdout = [] :=
  client_main_error_is_fatal failsOnceClient (some responseWithOneCat)
    { msg := "connection refused" } rfl

/-- C6: end to end, when the transport hands the caller what the backend returned for
the call (for whatever receiver, context and request the gateway passed to it), the
response the caller gets has 3 pets named "Rocky", "Buddy", "Dante" in this order, its
standard output is exactly the three lines ">>> Rocky", ">>> Buddy", ">>> Dante" in this
order, and it exits with status 0. -/
theorem end_to_end_three_lines (c : PetStoreServiceClient) (p : Option petStoreService)
    (ctx : Context) (req : Option (Request ListPetsRequest))
    (hdeliver : c 0 Context.Background (connect.NewRequest (some {})) =
      petStoreService.ListPets p ctx req) :
    (∃ resp, (c 0 Context.Background (connect.NewRequest (some {}))).1 = some resp ∧
      (ListPetsResponse.GetPets resp.Msg).len = 3 ∧
      (ListPetsResponse.GetPets resp.Msg).elems.map (Option.map Pet.Name) =
        [some "Rocky", some "Buddy", some "Dante"]) ∧
    (client.main c).stdout = [">>> Rocky\n", ">>> Buddy\n", ">>> Dante\n"] ∧
    String.join (client.main c).stdout = ">>> Rocky\n>>> Buddy\n>>> Dante\n" ∧
    (client.main c).stderr = [] ∧
    (client.main c).exit = some 0 := by
  have h := client_main_of_success c _
    [{ Name := "Rocky", PetType := PetType.PET_TYPE_DOG },
     { Name := "Buddy", PetType := PetType.PET_TYPE_DOG },
     { Name := "Dante", PetType := PetType.PET_TYPE_DOG }] hdeliver rfl
  refine ⟨?_, ?_, ?_, ?_, ?_⟩
  · rw [hdeliver]
    exact ⟨_, rfl, rfl, rfl⟩
  · rw [h]; decide
  · rw [h]; decide
  · rw [h]
  · rw [h]

/-- The C6 theorem at the transport that delivers the backend's answer unchanged. -/
theorem end_to_end_three_lines_witness :
    (client.main (deliveredUnchanged none)).stdout =
      [">>> Rocky\n", ">>> Buddy\n", ">>> Dante\n"] ∧
    (client.main (deliveredUnchanged none)).exit = some 0 :=
  ⟨(end_to_end_three_lines (deliveredUnchanged none) none Context.Background
      (connect.NewRequest (some {})) rfl).2.1,
    (end_to_end_three_lines (deliveredUnchanged none) none Context.Background
      (connect.NewRequest (some {})) rfl).2.2.2.2⟩

/-- C9: on a successful call the caller's print loop cannot fault when the response
message is nil or the pets sequence is nil or empty: it writes nothing and the process
exits with status 0. And for every response whose pets entries are all non-nil the loop
does not fault either (no panic is reported, the exit status is 0) and runs exactly
`len(pets)` times, one write per iteration. -/
theorem print_loop_cannot_fault (c : PetStoreServiceClient) (resp : Response ListPetsResponse)
    (hcall : c 0 Context.Background (connect.NewRequest (some {})) = (some resp, none)) :
    ((resp.Msg = none ∨ resp.Msg = some { Pets := none } ∨ resp.Msg = some { Pets := some [] }) →
      client.main c = { calls := 1, stdout := [], stderr := [], exit := some 0 }) ∧
    ((∀ e ∈ (ListPetsResponse.GetPets resp.Msg).elems, e ≠ none) →
      (client.main c).stderr = [] ∧ (client.main c).exit = some 0 ∧
      (client.main c).stdout.length = (ListPetsResponse.GetPets resp.Msg).len) := by
  constructor
  · intro h
    have hel : (ListPetsResponse.GetPets resp.Msg).elems = ([] : List Pet).map some := by
      rcases h with h | h | h <;> rw [h] <;> rfl
    exact client_main_of_success c resp [] hcall hel
  · intro h
    obtain ⟨pets, hpets⟩ := all_some_of_no_nil _ h
    have hm := client_main_of_success c resp pets hcall hpets
    simp [hm, Slice.len, hpets]

/-- The C9 theorem at a response whose pets sequence is nil, and at the backend's response. -/
theorem print_loop_cannot_fault_witness :
    client.main (fun _ _ _ => (some { Msg := some { Pets := none }, header := [], trailer := [] },
      none)) = { calls := 1, stdout := [], stderr := [], exit := some 0 } ∧
    (client.main (deliveredUnchanged none)).stdout.length = 3 :=
  ⟨(print_loop_cannot_fault
      (fun _ _ _ => (some { Msg := some { Pets := none }, header := [], trailer := [] }, none))
      { Msg := some { Pets := none }, header := [], trailer := [] } rfl).1 (Or.inr (Or.inl rfl)),
    ((print_loop_cannot_fault (deliveredUnchanged none)
      { Msg := (petStoreService.ListPets none Context.Background none).1.bind (fun r => r.Msg)
        header := []
        trailer := [] } rfl).2 (by decide)).2.2⟩

/-! ## Gateway -/

/-- C7: the gateway the server's `main` builds registers exactly one operation,
`ListPets`, under the path `/<package>.<Service>/<Method>`: one handler is mounted, at the
service's path; a request on the `ListPets` path is answered with the result of
`petStoreService.ListPets` on the request's context and decoded request, and a request on
any other path is not routed to an operation (not found). The generated handler does the
same for any backend it is given: it calls that backend's `ListPets`. -/
theorem gateway_routes_only_ListPets :
    petstorev1connect.PetStoreServiceListPetsProcedure =
      "/" ++ petstorev1connect.packageName ++ "." ++ "PetStoreService" ++ "/" ++ "ListPets" ∧
    (∃ mx, server.router = some mx ∧ mx.routes.length = 1 ∧
      mx.routes.map Prod.fst = ["/" ++ petstorev1connect.PetStoreServiceName ++ "/"]) ∧
    (∀ req : HttpRequest, ∃ resp, server.main req = some resp ∧
      resp.routed =
        if req.path = petstorev1connect.PetStoreServiceListPetsProcedure then
          Routed.rpc (petStoreService.ListPets (some {}) req.ctx req.body)
        else Routed.notFound) ∧
    (∀ (svc : PetStoreServiceHandler) (req : HttpRequest),
      ((petstorev1connect.NewPetStoreServiceHandler svc).2 req).routed =
        if req.path = petstorev1connect.PetStoreServiceListPetsProcedure then
          Routed.rpc (svc.ListPets req.ctx req.body)
        else Routed.notFound) := by
  refine ⟨by decide, ⟨_, server_router_eq, rfl, rfl⟩, ?_, ?_⟩
  · intro req
    have hserve := server_serve _ server_router_eq
    have hroute := server_route _ server_router_eq req
    refine ⟨_, by rw [server.main, server_router_eq]; rfl, ?_⟩
    simp only [hserve, cors.Options.Handler, hroute]
    by_cases hp : req.path = petstorev1connect.PetStoreServiceListPetsProcedure
    · simp only [if_pos hp]
      split
      · rfl
      · split <;> rfl
    · simp only [if_neg hp]
      split
      · rfl
      · split <;> rfl
  · intro svc req
    simp only [petstorev1connect.NewPetStoreServiceHandler]
    split <;> rfl

/-- C8: the server puts the allow-all cross-origin policy around every route it serves.
The policy is installed on a router that has no route yet, and the service handler is
mounted on the router that results (the router would refuse the policy after the mount);
serving is the policy around routing; the policy admits every origin; and so a request
from any origin, on any path, reaches routing unchanged and its answer carries the
allow-origin header `*`. -/
theorem cross_origin_policy_admits_every_origin :
    (∃ r₁, chi.NewRouter.Use cors.AllowAll.Handler = some r₁ ∧ r₁.routes = [] ∧
      r₁.middlewares.length = 1 ∧
      server.router = some (r₁.Mount (petstorev1connect.NewPetStoreServiceHandler
        (petStoreService.toHandler (some {}))))) ∧
    ((chi.NewRouter.Mount (petstorev1connect.NewPetStoreServiceHandler
        (petStoreService.toHandler (some {})))).Use cors.AllowAll.Handler).isNone = true ∧
    (∃ mx, server.router = some mx ∧ mx.ServeHTTP = cors.AllowAll.Handler mx.routeHTTP) ∧
    (∀ origin : String, cors.AllowAll.isOriginAllowed origin = true) ∧
    (∀ (req : HttpRequest) (origin : String), req.origin = some origin →
      ∃ mx resp, server.router = some mx ∧ server.main req = some resp ∧
        resp.allowOrigin = some "*" ∧ resp.routed = (mx.routeHTTP req).routed) := by
  have hall : ∀ origin : String, cors.AllowAll.isOriginAllowed origin = true := by
    intro origin
    simp [cors.Options.isOriginAllowed, cors.Options.allowedOriginsAll, cors.AllowAll]
  refine ⟨⟨_, rfl, rfl, rfl, rfl⟩, rfl, ⟨_, server_router_eq, server_serve _ server_router_eq⟩,
    hall, ?_⟩
  intro req origin horigin
  have hserve := server_serve _ server_router_eq
  refine ⟨_, _, server_router_eq, by rw [server.main, server_router_eq]; rfl, ?_, ?_⟩
  · have hstar : cors.AllowAll.allowedOriginsAll = true := rfl
    beta_reduce
    rw [hserve]
    simp [cors.Options.Handler, horigin, hall, hstar]
  · beta_reduce
    rw [hserve]
    simp [cors.Options.Handler, horigin, hall]

end PetStore
